import Mathlib

/-!
# Verification of the GitHub-activity data pipeline

A shallow embedding of the portfolio site's GitHub-activity pipeline:

* the server-side proxy route (`GET` handler of the activity API route):
  structure check on the upstream body, future-date filter, chronological
  sort, last-365 slice, year-range and totals computation, and the
  status/error taxonomy of its failure paths;
* the client-side widget's mount logic (`fetchData` in `GitHubActivity.tsx`):
  the versioned TTL cache check, live fetch, cache write and state
  transitions, plus the tooltip formatter.

JavaScript numbers that hold contribution counts, timestamps and version
tags are modelled as `Int`; date strings are compared with Lean's
lexicographic `String` order, which agrees with JavaScript's code-unit
`<=` (and, on ASCII date strings, with `localeCompare`) as used by the
route's filter and sort.
-/

namespace Portfolio

/-- `FETCH_TIMEOUT` (milliseconds), shared by the route and the widget. -/
def FETCH_TIMEOUT : Nat := 10000

/-- `CACHE_TTL` from `GitHubActivity.tsx`: `1000 * 60 * 60` milliseconds. -/
def CACHE_TTL : Int := 1000 * 60 * 60

/-- `CACHE_VERSION` from `GitHubActivity.tsx`. -/
def CACHE_VERSION : Int := 2

/-- `ExternalActivity` from the route: one upstream contribution entry. -/
structure ExternalActivity where
  date : String
  count : Int
  level : Int
deriving DecidableEq, Repr

/-- A JSON value as produced by `await response.json()`, restricted to the
two fields the route inspects. `undef` stands for an absent field. Arrays
are specialised to well-typed contribution entries and objects to numeric
mappings: the shapes whose further processing the route defines. -/
inductive JVal where
  | undef
  | null
  | bool (b : Bool)
  | num (n : Int)
  | str (s : String)
  | arr (elems : List ExternalActivity)
  | obj (entries : List (String × Int))
deriving DecidableEq, Repr

/-- JavaScript truthiness (`!x` in the route is `!x.truthy`). -/
def JVal.truthy : JVal → Bool
  | .undef => false
  | .null => false
  | .bool b => b
  | .num n => n != 0
  | .str s => s != ""
  | .arr _ => true
  | .obj _ => true

/-- `Array.isArray`. -/
def JVal.isArray : JVal → Bool
  | .arr _ => true
  | _ => false

/-- The element list of an array value (the shape the route is guaranteed
after `Array.isArray` succeeded). -/
def JVal.asArr : JVal → List ExternalActivity
  | .arr xs => xs
  | _ => []

/-- `Object.values` on the `total` field: the values of a mapping; on the
primitive values the truthiness check lets through (such as a nonzero
number), `Object.values` finds no own enumerable properties and yields
`[]`. -/
def JVal.values : JVal → List Int
  | .obj m => m.map (·.2)
  | _ => []

/-- The parsed upstream body (`ExternalApiResponse` when well-typed),
restricted to the two fields the route reads. -/
structure UpstreamBody where
  contributions : JVal
  total : JVal
deriving DecidableEq, Repr

/-- The JSON payload of the route's 200 response. -/
structure ActivityPayload where
  contributions : List ExternalActivity
  lastYearTotal : Int
  allTimeTotal : Int
  yearRange : String
deriving DecidableEq, Repr

/-- A response of the route: `ok` is the status-200 payload (sent with the
cache headers), `err` a failure status with its `error` body field. -/
inductive ProxyResponse where
  | ok (payload : ActivityPayload)
  | err (status : Nat) (error : String)
deriving DecidableEq, Repr

/-- The HTTP status of a route response. -/
def ProxyResponse.status : ProxyResponse → Nat
  | .ok _ => 200
  | .err s _ => s

/-- The numeric value of a decimal digit character, `none` on any other
character. -/
def digitVal (c : Char) : Option Nat :=
  if 48 ≤ c.toNat ∧ c.toNat ≤ 57 then some (c.toNat - 48) else none

/-- Accumulate a decimal numeral from digit characters. -/
def digitsToNatAux : List Char → Nat → Option Nat
  | [], acc => some acc
  | c :: cs, acc =>
    match digitVal c with
    | some d => digitsToNatAux cs (acc * 10 + d)
    | none => none

/-- The value of a nonempty all-digit character list, `none` otherwise. -/
def digitsToNat? : List Char → Option Nat
  | [] => none
  | c :: cs => digitsToNatAux (c :: cs) 0

/-- `new Date(s).getFullYear()` under a UTC runtime, for strings whose
leading four characters are the decimal year (as in `YYYY-MM-DD`): the
value of those four characters, with `0` standing in for the `NaN` of
otherwise-shaped input. -/
def getFullYear (s : String) : Int :=
  match digitsToNat? (s.data.take 4) with
  | some y => (y : Int)
  | none => 0

/-- Lexicographic comparison of character lists by code point: the order
JavaScript's `<=` induces on strings. -/
def charListLe : List Char → List Char → Bool
  | [], _ => true
  | _ :: _, [] => false
  | a :: as, b :: bs =>
    if a.toNat < b.toNat then true
    else if a.toNat = b.toNat then charListLe as bs
    else false

/-- `a <= b` on strings as JavaScript compares them (and, on the ASCII
date strings at hand, the ascending order `localeCompare` induces). -/
def strLe (a b : String) : Bool := charListLe a.data b.data

/-- The date-ascending comparison the route filters and sorts with. -/
def dateLE (a b : ExternalActivity) : Prop := strLe a.date b.date = true

instance : DecidableRel dateLE :=
  fun a b => inferInstanceAs (Decidable (strLe a.date b.date = true))

/-- `.filter((c) => c.date <= today)` from the route. -/
def filterFuture (today : String) (l : List ExternalActivity) : List ExternalActivity :=
  l.filter (fun c => strLe c.date today)

/-- `.sort((a, b) => a.date.localeCompare(b.date))`. JavaScript's sort is
stable, and a stable sort under a total preorder has a unique result, so
a stable insertion sort by `dateLE` is extensionally the same function. -/
def sortByDate (l : List ExternalActivity) : List ExternalActivity :=
  List.insertionSort dateLE l

/-- `.slice(-365)`: the last 365 elements (all of them when fewer). -/
def sliceLast365 (l : List ExternalActivity) : List ExternalActivity :=
  l.drop (l.length - 365)

/-- The year-range computation of the route: empty string for an empty
window, else the first entry's year, joined with the last entry's year by
`" - "` when they differ. -/
def yearRangeOf (l : List ExternalActivity) : String :=
  match l.head?, l.getLast? with
  | some first, some last =>
    let startYear := getFullYear first.date
    let endYear := getFullYear last.date
    if startYear = endYear then toString startYear
    else toString startYear ++ " - " ++ toString endYear
  | _, _ => ""

/-- The route's success path after `response.json()` succeeded: the
structure check followed by filter, sort, slice, year range and the two
totals, assembled into the 200 payload. -/
def proxyProcess (today : String) (b : UpstreamBody) : ProxyResponse :=
  if !b.contributions.truthy || !b.contributions.isArray || !b.total.truthy then
    .err 502 "Invalid data structure from GitHub API"
  else
    let lastYearData := sliceLast365 (sortByDate (filterFuture today b.contributions.asArr))
    .ok { contributions := lastYearData
          lastYearTotal := (lastYearData.map ExternalActivity.count).sum
          allTimeTotal := b.total.values.sum
          yearRange := yearRangeOf lastYearData }

/-- A JavaScript `Error` as the route's `catch` block reads it. -/
structure JsError where
  name : String
  message : String
deriving DecidableEq, Repr

/-- A value thrown inside the route's `try` block: an `Error` instance or
anything else. -/
inductive Thrown where
  | jsError (e : JsError)
  | other
deriving DecidableEq, Repr

/-- The route's `catch` block: an `AbortError` maps to 504 with a fixed
message, any other `Error` to 500 with its message, a non-`Error` throw to
500 with `"Unknown error"`. -/
def handleCatch : Thrown → ProxyResponse
  | .jsError e =>
    if e.name = "AbortError" then .err 504 "Request timed out"
    else .err 500 e.message
  | .other => .err 500 "Unknown error"

/-- How the route's outbound `fetch` settles, as seen by its `try` block.
`timedOut` is the case where `controller.abort()` fired and `fetch`
rejected with an `AbortError`; `responded` carries the HTTP status and the
outcome of `response.json()`. -/
inductive UpstreamInteraction where
  | timedOut
  | failed (t : Thrown)
  | responded (status : Nat) (body : Except Thrown UpstreamBody)
deriving Repr

/-- `response.ok`. -/
def statusOk (status : Nat) : Bool := 200 ≤ status && status < 300

/-- The whole `GET` handler of the activity route, as a function of the
current date string and of how the upstream interaction settles. -/
def GET (today : String) (u : UpstreamInteraction) : ProxyResponse :=
  match u with
  | .timedOut => handleCatch (.jsError ⟨"AbortError", "The operation was aborted"⟩)
  | .failed t => handleCatch t
  | .responded status body =>
    if !statusOk status then
      .err status ("Failed to fetch GitHub data: " ++ toString status)
    else
      match body with
      | .error t => handleCatch t
      | .ok b => proxyProcess today b

/-- The `setTimeout`/`AbortController` race of the route: once the
upstream call takes at least `FETCH_TIMEOUT` milliseconds to settle, the
timer fires first and the abort wins; otherwise `clearTimeout` cancels the
timer and the settled interaction stands. -/
def raceTimeout (elapsedMs : Nat) (settled : UpstreamInteraction) : UpstreamInteraction :=
  if FETCH_TIMEOUT ≤ elapsedMs then .timedOut else settled

/-- `GitHubData` of the widget: the same shape as the route's payload. -/
abbrev GitHubData := ActivityPayload

/-- `CachedData` from `GitHubActivity.tsx`: the record the widget stores
under its cache key. -/
structure CachedData where
  data : GitHubData
  timestamp : Int
  version : Int
deriving DecidableEq, Repr

/-- What reading and parsing the cached record can yield. `malformed`
covers a stored string `JSON.parse` rejects, as well as a parsed value
whose property access throws — every case swallowed by the surrounding
`try`/`catch` in `fetchData`. -/
inductive StoredValue where
  | malformed (raw : String)
  | parsed (c : CachedData)
deriving DecidableEq, Repr

/-- The browser-local store at the widget's cache key (`none` = absent). -/
abbrev Store := Option StoredValue

/-- The widget's cache check: `some d` is the early `success` return with
the cached data, `none` falls through to the live fetch. The cached data
is used exactly when the record parses, its version tag equals
`CACHE_VERSION` and its age `now - timestamp` is below `CACHE_TTL`. -/
def checkCache (now : Int) (store : Store) : Option GitHubData :=
  match store with
  | none => none
  | some (.malformed _) => none
  | some (.parsed c) =>
    if c.version = CACHE_VERSION ∧ now - c.timestamp < CACHE_TTL then some c.data
    else none

/-- The widget's terminal mount states. -/
inductive WidgetStatus where
  | loading
  | success (d : GitHubData)
  | error (message : String)
deriving DecidableEq, Repr

/-- How the widget's own `fetch(API_URL)` settles on the live-fetch path:
an ok response whose body parses as `GitHubData`, a non-ok response (with
the body's `error` field when one parsed), an abort by the 10-second
timer, or another rejection. -/
inductive WidgetFetch where
  | ok (d : GitHubData)
  | httpError (status : Nat) (errField : Option String)
  | aborted
  | thrown (e : JsError)
deriving DecidableEq, Repr

/-- The message thrown on a non-ok response:
`errorData.error || Failed to fetch: status` (an empty `error` field is
falsy and also falls back). -/
def httpErrorMessage (status : Nat) (errField : Option String) : String :=
  match errField with
  | some s => if s ≠ "" then s else "Failed to fetch: " ++ toString status
  | none => "Failed to fetch: " ++ toString status

/-- The outcome of one mount: the store after the sequence, the terminal
widget state, and whether the live fetch to the route was issued. -/
structure MountResult where
  store : Store
  status : WidgetStatus
  fetched : Bool
deriving DecidableEq, Repr

/-- The widget's on-mount `fetchData`: cache check with early return, else
live fetch, state transition, and — only after a successful fetch — the
cache write (`writeOk` is whether `localStorage.setItem` succeeds; its
failure is swallowed and the store is left as it was). The component stays
mounted throughout, so the `isMounted` guards hold. -/
def mountSequence (now : Int) (store : Store) (f : WidgetFetch) (writeOk : Bool) :
    MountResult :=
  match checkCache now store with
  | some d => ⟨store, .success d, false⟩
  | none =>
    match f with
    | .ok d =>
      ⟨if writeOk then some (.parsed ⟨d, now, CACHE_VERSION⟩) else store, .success d, true⟩
    | .httpError status errField => ⟨store, .error (httpErrorMessage status errField), true⟩
    | .aborted => ⟨store, .error "Request timed out. Please try again.", true⟩
    | .thrown e => ⟨store, .error e.message, true⟩

/-- The month names `toLocaleDateString("en-US", { month: "long", ... })`
renders. -/
def monthName (m : Nat) : String :=
  match m with
  | 1 => "January" | 2 => "February" | 3 => "March" | 4 => "April"
  | 5 => "May" | 6 => "June" | 7 => "July" | 8 => "August"
  | 9 => "September" | 10 => "October" | 11 => "November" | 12 => "December"
  | _ => "Invalid"

/-- Decompose a `YYYY-MM-DD`-shaped string into its numeric year, month
and day; `none` when the string does not have exactly that shape with
decimal digits. -/
def parseYMD (s : String) : Option (Nat × Nat × Nat) :=
  match s.data with
  | [y1, y2, y3, y4, h1, m1, m2, h2, d1, d2] =>
    if h1 = '-' ∧ h2 = '-' then
      match digitsToNat? [y1, y2, y3, y4], digitsToNat? [m1, m2], digitsToNat? [d1, d2] with
      | some yn, some mn, some dn => some (yn, mn, dn)
      | _, _, _ => none
    else none
  | _ => none

/-- The Gregorian leap-year rule. -/
def isLeapYear (y : Nat) : Bool :=
  (y % 4 = 0 && y % 100 ≠ 0) || y % 400 = 0

/-- Days in a month of the Gregorian calendar. -/
def daysInMonth (y m : Nat) : Nat :=
  if m = 2 then (if isLeapYear y then 29 else 28)
  else if m = 4 ∨ m = 6 ∨ m = 9 ∨ m = 11 then 30
  else 31

/-- Whether a numeric year/month/day triple is a real calendar date. -/
def isValidTriple (y m d : Nat) : Bool :=
  1 ≤ m && m ≤ 12 && 1 ≤ d && d ≤ daysInMonth y m

/-- The spec's `ContributionDay` invariant on the `date` field: a
well-formed calendar date string in `YYYY-MM-DD` form. Stated from the
spec's data-model wording, to be compared with what the route lets
through. -/
def isValidDate (s : String) : Bool :=
  match parseYMD s with
  | some (y, m, d) => isValidTriple y m d
  | none => false

/-- Whether every character of a list is a decimal digit. -/
def isDigits (cs : List Char) : Bool :=
  cs.all fun c => 48 ≤ c.toNat && c.toNat ≤ 57

/-- The spec's shape for `yearRange`: either `"YYYY"` or
`"YYYY - YYYY"`, four decimal digits per year. Stated from the spec's
wording, to be compared with what the route produces. -/
def isYearRangeForm (s : String) : Bool :=
  match s.data with
  | [a, b, c, d] => isDigits [a, b, c, d]
  | [a, b, c, d, s1, s2, s3, e, f, g, h] =>
    isDigits [a, b, c, d] && s1 = ' ' && s2 = '-' && s3 = ' ' && isDigits [e, f, g, h]
  | _ => false

/-- `formatDate` from `GitHubActivity.tsx` under a UTC runtime: a valid
`YYYY-MM-DD` string renders as `"Month D, YYYY"`; input the `Date`
constructor rejects renders as `"Invalid Date"`. -/
def formatDate (s : String) : String :=
  match parseYMD s with
  | some (y, m, d) =>
    if isValidTriple y m d then monthName m ++ " " ++ toString d ++ ", " ++ toString y
    else "Invalid Date"
  | none => "Invalid Date"

/-- `formatTooltip` from `GitHubActivity.tsx`. -/
def formatTooltip (count : Int) (date : String) : String :=
  let formattedDate := formatDate date
  if count = 0 then "No contributions on " ++ formattedDate
  else if count = 1 then "1 contribution on " ++ formattedDate
  else toString count ++ " contributions on " ++ formattedDate

/-! ### Concrete inputs used by the witnesses -/

/-- The spec's example upstream body:
`{ total: { "2023": 100, "2024": 50 }, contributions: [...] }`. -/
def exampleBody : UpstreamBody :=
  ⟨.arr [⟨"2024-01-01", 2, 1⟩, ⟨"2024-01-02", 0, 0⟩],
   .obj [("2023", 100), ("2024", 50)]⟩

/-- The payload the route produces for `exampleBody` with today
`2024-01-03`. -/
def examplePayload : ActivityPayload :=
  ⟨[⟨"2024-01-01", 2, 1⟩, ⟨"2024-01-02", 0, 0⟩], 2, 150, "2024"⟩

/-- A body with one future-dated entry relative to today `2024-01-03`. -/
def futureBody : UpstreamBody :=
  ⟨.arr [⟨"2024-01-05", 9, 1⟩, ⟨"2024-01-02", 1, 0⟩], .obj [("2024", 10)]⟩

/-- The payload the route produces for `futureBody` with today
`2024-01-03`: the future-dated entry is gone. -/
def futurePayload : ActivityPayload :=
  ⟨[⟨"2024-01-02", 1, 0⟩], 1, 10, "2024"⟩

/-- An upstream entry whose date is not a well-formed `YYYY-MM-DD` string
(slashes instead of hyphens, which the `Date` constructor still parses)
and whose count is negative. -/
def invalidEntry : ExternalActivity := ⟨"2020/01/01", -3, 0⟩

/-- A structurally acceptable body carrying `invalidEntry`. -/
def invalidBody : UpstreamBody := ⟨.arr [invalidEntry], .obj [("2020", 1)]⟩

/-- A body whose contributions array is empty, so the kept window is
empty. -/
def emptyWindowBody : UpstreamBody := ⟨.arr [], .obj [("2023", 7)]⟩

/-! ### Helper lemmas -/

theorem charListLe_total (x y : List Char) :
    charListLe x y = true ∨ charListLe y x = true := by
  induction x generalizing y with
  | nil => exact Or.inl rfl
  | cons a as ih =>
    cases y with
    | nil => exact Or.inr rfl
    | cons b bs =>
      simp only [charListLe]
      rcases Nat.lt_trichotomy a.toNat b.toNat with h | h | h
      · left
        rw [if_pos h]
      · rcases ih bs with h' | h'
        · left
          rw [if_neg (by omega), if_pos h, h']
        · right
          rw [if_neg (by omega), if_pos h.symm, h']
      · right
        rw [if_pos h]

theorem charListLe_trans {x y z : List Char}
    (h1 : charListLe x y = true) (h2 : charListLe y z = true) :
    charListLe x z = true := by
  induction x generalizing y z with
  | nil => rfl
  | cons a as ih =>
    cases y with
    | nil => simp [charListLe] at h1
    | cons b bs =>
      cases z with
      | nil => simp [charListLe] at h2
      | cons c cs =>
        simp only [charListLe] at h1 h2 ⊢
        rcases Nat.lt_trichotomy a.toNat b.toNat with hab | hab | hab
        · rcases Nat.lt_trichotomy b.toNat c.toNat with hbc | hbc | hbc
          · rw [if_pos (by omega)]
          · rw [if_pos (by omega)]
          · rw [if_neg (by omega), if_neg (by omega)] at h2
            exact absurd h2 (by simp)
        · rcases Nat.lt_trichotomy b.toNat c.toNat with hbc | hbc | hbc
          · rw [if_pos (by omega)]
          · rw [if_neg (by omega), if_pos hab] at h1
            rw [if_neg (by omega), if_pos hbc] at h2
            rw [if_neg (by omega), if_pos (by omega)]
            exact ih h1 h2
          · rw [if_neg (by omega), if_neg (by omega)] at h2
            exact absurd h2 (by simp)
        · rw [if_neg (by omega), if_neg (by omega)] at h1
          exact absurd h1 (by simp)

instance : IsTotal ExternalActivity dateLE :=
  ⟨fun a b => charListLe_total a.date.data b.date.data⟩

instance : IsTrans ExternalActivity dateLE :=
  ⟨fun _ _ _ h h' => charListLe_trans h h'⟩

theorem handleCatch_ne_ok (t : Thrown) (p : ActivityPayload) : handleCatch t ≠ .ok p := by
  cases t with
  | jsError e =>
    by_cases h : e.name = "AbortError" <;> simp [handleCatch, h]
  | other => simp [handleCatch]

set_option maxRecDepth 10000 in
theorem proxyProcess_ok_inv {today : String} {b : UpstreamBody} {p : ActivityPayload}
    (h : proxyProcess today b = .ok p) :
    p.contributions = sliceLast365 (sortByDate (filterFuture today b.contributions.asArr)) ∧
    p.lastYearTotal = (p.contributions.map ExternalActivity.count).sum ∧
    p.allTimeTotal = b.total.values.sum ∧
    p.yearRange = yearRangeOf p.contributions := by
  simp only [proxyProcess] at h
  split at h
  · exact absurd h (by simp)
  · injection h with h
    subst h
    exact ⟨rfl, rfl, rfl, rfl⟩

theorem GET_ok_elim {today : String} {u : UpstreamInteraction} {p : ActivityPayload}
    (h : GET today u = .ok p) : ∃ b : UpstreamBody, proxyProcess today b = .ok p := by
  cases u with
  | timedOut =>
    simp only [GET] at h
    exact absurd h (handleCatch_ne_ok _ _)
  | failed t =>
    simp only [GET] at h
    exact absurd h (handleCatch_ne_ok _ _)
  | responded status body =>
    simp only [GET] at h
    split at h
    · exact absurd h (by simp)
    · split at h
      · exact absurd h (handleCatch_ne_ok _ _)
      · next b => exact ⟨b, h⟩

theorem sorted_pipeline (today : String) (l : List ExternalActivity) :
    List.Sorted dateLE (sliceLast365 (sortByDate (filterFuture today l))) :=
  List.Pairwise.sublist (List.drop_sublist _ _) (List.sorted_insertionSort dateLE _)

theorem length_sliceLast365 (l : List ExternalActivity) : (sliceLast365 l).length ≤ 365 := by
  simp only [sliceLast365, List.length_drop]
  omega

theorem mem_filterFuture {today : String} {l : List ExternalActivity} {c : ExternalActivity} :
    c ∈ filterFuture today l ↔ c ∈ l ∧ strLe c.date today = true := by
  simp [filterFuture]

theorem mem_pipeline {today : String} {l : List ExternalActivity} {c : ExternalActivity}
    (h : c ∈ sliceLast365 (sortByDate (filterFuture today l))) :
    c ∈ l ∧ strLe c.date today = true := by
  have h1 : c ∈ sortByDate (filterFuture today l) := (List.drop_sublist _ _).subset h
  have h2 : c ∈ filterFuture today l :=
    (List.perm_insertionSort dateLE (filterFuture today l)).mem_iff.mp h1
  exact mem_filterFuture.mp h2

theorem truthy_of_isArray {v : JVal} (h : v.isArray = true) : v.truthy = true := by
  cases v <;> simp_all [JVal.isArray, JVal.truthy]

theorem structureCheck_iff (b : UpstreamBody) :
    (!b.contributions.truthy || !b.contributions.isArray || !b.total.truthy) = true ↔
    (b.contributions.isArray = false ∨ b.total.truthy = false) := by
  obtain ⟨c, t⟩ := b
  cases c <;> cases t <;> simp [JVal.truthy, JVal.isArray]

theorem fetched_eq (now : Int) (store : Store) (f : WidgetFetch) (w : Bool) :
    (mountSequence now store f w).fetched = (checkCache now store).isNone := by
  unfold mountSequence
  cases h : checkCache now store
  · cases f <;> rfl
  · rfl

theorem checkCache_eq_none_iff (now : Int) (store : Store) :
    checkCache now store = none ↔
      (store = none ∨ (∃ raw, store = some (.malformed raw)) ∨
        (∃ c, store = some (.parsed c) ∧
          (c.version ≠ CACHE_VERSION ∨ CACHE_TTL ≤ now - c.timestamp))) := by
  cases store with
  | none => simp [checkCache]
  | some sv =>
    cases sv with
    | malformed raw => simp [checkCache]
    | parsed c =>
      constructor
      · intro h
        refine Or.inr (Or.inr ⟨c, rfl, ?_⟩)
        by_contra hbad
        push_neg at hbad
        simp only [checkCache] at h
        rw [if_pos ⟨hbad.1, hbad.2⟩] at h
        exact absurd h (by simp)
      · rintro (h | ⟨raw, h⟩ | ⟨c', h, hbad⟩)
        · exact absurd h (by simp)
        · exact absurd h (by simp)
        · simp only [Option.some.injEq, StoredValue.parsed.injEq] at h
          subst h
          have hne : ¬(c.version = CACHE_VERSION ∧ now - c.timestamp < CACHE_TTL) := by
            rintro ⟨hv, ht⟩
            rcases hbad with hb | hb
            · exact hb hv
            · exact absurd ht (not_lt.mpr hb)
          simp only [checkCache]
          rw [if_neg hne]

theorem checkCache_hit (now : Int) (c : CachedData)
    (hv : c.version = CACHE_VERSION) (ht : now - c.timestamp < CACHE_TTL) :
    checkCache now (some (.parsed c)) = some c.data := by
  simp [checkCache, hv, ht]

/-! ### Claims -/

/-- C1: for every upstream response that passes the proxy's structure
check, the `contributions` sequence in the proxy's 200 response is sorted
ascending by date string and its length is at most 365. -/
theorem C1_contributions_sorted_and_bounded (today : String) (u : UpstreamInteraction)
    (p : ActivityPayload) (h : GET today u = .ok p) :
    List.Sorted dateLE p.contributions ∧ p.contributions.length ≤ 365 := by
  obtain ⟨b, hb⟩ := GET_ok_elim h
  obtain ⟨hc, -, -, -⟩ := proxyProcess_ok_inv hb
  rw [hc]
  exact ⟨sorted_pipeline today _, length_sliceLast365 _⟩

set_option maxRecDepth 100000 in
theorem C1_witness :
    GET "2024-01-03" (.responded 200 (.ok exampleBody)) = .ok examplePayload ∧
    (List.Sorted dateLE examplePayload.contributions ∧
      examplePayload.contributions.length ≤ 365) :=
  ⟨by decide,
   C1_contributions_sorted_and_bounded "2024-01-03" (.responded 200 (.ok exampleBody))
     examplePayload (by decide)⟩

/-- C2: in every 200 response of the proxy, `lastYearTotal` equals the
exact integer sum of `count` over the returned `contributions` sequence,
and `allTimeTotal` equals the exact sum of all values of the upstream
`total` mapping, independent of which entries survived the 365-entry
window. -/
theorem C2_totals (today : String) (b : UpstreamBody) (p : ActivityPayload)
    (h : proxyProcess today b = .ok p) :
    p.lastYearTotal = (p.contributions.map ExternalActivity.count).sum ∧
    ∀ m : List (String × Int), b.total = .obj m →
      p.allTimeTotal = (m.map Prod.snd).sum := by
  obtain ⟨-, h1, h2, -⟩ := proxyProcess_ok_inv h
  refine ⟨h1, fun m hm => ?_⟩
  rw [h2, hm]
  rfl

set_option maxRecDepth 100000 in
theorem C2_witness :
    proxyProcess "2024-01-03" exampleBody = .ok examplePayload ∧
    (examplePayload.lastYearTotal =
        (examplePayload.contributions.map ExternalActivity.count).sum ∧
      ∀ m : List (String × Int), exampleBody.total = .obj m →
        examplePayload.allTimeTotal = (m.map Prod.snd).sum) :=
  ⟨by decide, C2_totals "2024-01-03" exampleBody examplePayload (by decide)⟩

set_option maxRecDepth 100000 in
/-- C3 counterexample: an upstream body whose `total` field is the number
5 — truthy but not a mapping — passes the structure check, so the proxy
returns a 200 payload rather than the claimed 502. -/
theorem C3_counterexample :
    proxyProcess "2024-01-03" ⟨.arr [], .num 5⟩ = .ok ⟨[], 0, 0, ""⟩ ∧
    (proxyProcess "2024-01-03" ⟨.arr [], .num 5⟩).status ≠ 502 := by decide

/-- C3 amended: the proxy returns 502 with body
`{ error: "Invalid data structure from GitHub API" }` exactly when the
`contributions` field is not a sequence (including absent) or the `total`
field is falsy (absent, null, false, 0 or the empty string); a truthy
non-mapping `total` passes the check. -/
theorem C3_amended_invalid_structure (today : String) (b : UpstreamBody) :
    proxyProcess today b = .err 502 "Invalid data structure from GitHub API" ↔
    (b.contributions.isArray = false ∨ b.total.truthy = false) := by
  rw [← structureCheck_iff b]
  constructor
  · intro h
    by_contra hc
    rw [Bool.not_eq_true] at hc
    simp only [proxyProcess, hc] at h
    exact absurd h (by simp)
  · intro h
    simp only [proxyProcess, h]
    rfl

theorem C3_witness :
    proxyProcess "2024-01-03" (UpstreamBody.mk .undef (.obj [("2024", 1)])) =
      .err 502 "Invalid data structure from GitHub API" :=
  (C3_amended_invalid_structure "2024-01-03" _).mpr (Or.inl rfl)

/-- C4: no upstream entry dated strictly after the current date (that is,
with `date <= today` false) appears in the proxy's returned
contributions, and the future-date filter keeps every entry dated on or
before the current date. -/
theorem C4_future_dates_excluded (today : String) (b : UpstreamBody) (p : ActivityPayload)
    (h : proxyProcess today b = .ok p) :
    (∀ c ∈ b.contributions.asArr, strLe c.date today = false → c ∉ p.contributions) ∧
    (∀ c ∈ b.contributions.asArr, strLe c.date today = true →
      c ∈ filterFuture today b.contributions.asArr) := by
  obtain ⟨hc, -, -, -⟩ := proxyProcess_ok_inv h
  constructor
  · intro c _ hfut hmem
    rw [hc] at hmem
    have hkept := (mem_pipeline hmem).2
    rw [hfut] at hkept
    exact absurd hkept (by simp)
  · intro c hm hle
    exact mem_filterFuture.mpr ⟨hm, hle⟩

theorem mountSequence_hit (now : Int) (store : Store) (f : WidgetFetch) (w : Bool)
    (d : GitHubData) (hd : checkCache now store = some d) :
    mountSequence now store f w = ⟨store, .success d, false⟩ := by
  unfold mountSequence
  rw [hd]

theorem mountSequence_miss (now : Int) (store : Store) (f : WidgetFetch) (w : Bool)
    (hc : checkCache now store = none) :
    mountSequence now store f w =
      match f with
      | .ok d =>
        ⟨if w then some (.parsed ⟨d, now, CACHE_VERSION⟩) else store, .success d, true⟩
      | .httpError status errField => ⟨store, .error (httpErrorMessage status errField), true⟩
      | .aborted => ⟨store, .error "Request timed out. Please try again.", true⟩
      | .thrown e => ⟨store, .error e.message, true⟩ := by
  unfold mountSequence
  rw [hc]

/-- C5: on mount the widget fetches exactly when the cached record is
absent, malformed, version-mismatched or at least one hour old; a fresh
matching record yields `success` from the cache with no fetch; and a
malformed record alone never produces the error state. -/
theorem C5_cache_gate (now : Int) (store : Store) (f : WidgetFetch) (w : Bool) :
    ((mountSequence now store f w).fetched = true ↔
      (store = none ∨ (∃ raw, store = some (.malformed raw)) ∨
        (∃ c, store = some (.parsed c) ∧
          (c.version ≠ CACHE_VERSION ∨ CACHE_TTL ≤ now - c.timestamp)))) ∧
    (∀ c, store = some (.parsed c) → c.version = CACHE_VERSION →
      now - c.timestamp < CACHE_TTL →
      mountSequence now store f w = ⟨store, .success c.data, false⟩) ∧
    (∀ raw d, store = some (.malformed raw) → f = .ok d →
      (mountSequence now store f w).status = .success d) := by
  refine ⟨?_, ?_, ?_⟩
  · rw [fetched_eq, Option.isNone_iff_eq_none]
    exact checkCache_eq_none_iff now store
  · intro c hs hv ht
    subst hs
    exact mountSequence_hit now _ f w c.data (checkCache_hit now c hv ht)
  · intro raw d hs hf
    subst hs
    subst hf
    rfl

theorem C5_witness :
    (mountSequence 0 (some (.malformed "oops")) (.ok examplePayload) true).status =
      .success examplePayload :=
  (C5_cache_gate 0 (some (.malformed "oops")) (.ok examplePayload) true).2.2 "oops"
    examplePayload rfl rfl

set_option maxRecDepth 100000 in
/-- C6 counterexample: the proxy performs no per-entry validation — an
entry whose date is not `YYYY-MM-DD`-shaped and whose count is negative
passes through into the 200 payload. -/
theorem C6_counterexample :
    proxyProcess "2026-10-11" invalidBody = .ok ⟨[invalidEntry], -3, 1, "2020"⟩ ∧
    isValidDate invalidEntry.date = false ∧ invalidEntry.count < 0 := by decide

/-- C6 amended: every entry of the proxy's 200 response is drawn from the
upstream contributions sequence and is dated on or before the current
date string — unconditionally, for every 200 response. The proxy adds no
per-entry validation of its own, so the `ContributionDay` invariant
(well-formed date, non-negative count) is not guaranteed, only preserved:
when every upstream entry satisfies it, so does every returned entry. -/
theorem C6_amended_invariant_preserved (today : String) (b : UpstreamBody)
    (p : ActivityPayload) (h : proxyProcess today b = .ok p) :
    (∀ c ∈ p.contributions, c ∈ b.contributions.asArr ∧ strLe c.date today = true) ∧
    ((∀ c ∈ b.contributions.asArr, isValidDate c.date = true ∧ 0 ≤ c.count) →
      ∀ c ∈ p.contributions, isValidDate c.date = true ∧ 0 ≤ c.count) := by
  obtain ⟨hc, -, -, -⟩ := proxyProcess_ok_inv h
  constructor
  · intro c hm
    rw [hc] at hm
    exact mem_pipeline hm
  · intro hb c hm
    rw [hc] at hm
    exact hb c (mem_pipeline hm).1

set_option maxRecDepth 100000 in
theorem C6_witness :
    proxyProcess "2024-01-03" exampleBody = .ok examplePayload ∧
    ((∀ c ∈ examplePayload.contributions,
        c ∈ exampleBody.contributions.asArr ∧ strLe c.date "2024-01-03" = true) ∧
      ((∀ c ∈ exampleBody.contributions.asArr, isValidDate c.date = true ∧ 0 ≤ c.count) →
        ∀ c ∈ examplePayload.contributions, isValidDate c.date = true ∧ 0 ≤ c.count)) :=
  ⟨by decide,
   C6_amended_invariant_preserved "2024-01-03" exampleBody examplePayload (by decide)⟩

set_option maxRecDepth 100000 in
/-- C7 counterexample: a structurally valid upstream body with an empty
contributions array yields a 200 response whose `yearRange` is the empty
string, which is neither of the claimed `"YYYY"` / `"YYYY - YYYY"`
forms. -/
theorem C7_counterexample :
    proxyProcess "2024-01-03" emptyWindowBody = .ok ⟨[], 0, 7, ""⟩ ∧
    isYearRangeForm "" = false := by decide

/-- C7 amended: in every 200 response, `yearRange` is the empty string
when the kept window is empty; when it is non-empty, `yearRange` is the
year of the first entry rendered alone if it equals the year of the last
entry, and otherwise `"startYear - endYear"` built from those two
years. -/
theorem C7_amended_yearRange (today : String) (b : UpstreamBody) (p : ActivityPayload)
    (h : proxyProcess today b = .ok p) :
    (p.contributions = [] → p.yearRange = "") ∧
    (∀ firstE lastE, p.contributions.head? = some firstE →
      p.contributions.getLast? = some lastE →
      p.yearRange =
        if getFullYear firstE.date = getFullYear lastE.date
        then toString (getFullYear firstE.date)
        else toString (getFullYear firstE.date) ++ " - " ++
          toString (getFullYear lastE.date)) := by
  obtain ⟨-, -, -, hy⟩ := proxyProcess_ok_inv h
  constructor
  · intro he
    rw [hy, he]
    rfl
  · intro firstE lastE hf hl
    rw [hy]
    unfold yearRangeOf
    rw [hf, hl]

set_option maxRecDepth 100000 in
theorem C7_witness :
    proxyProcess "2024-01-03" exampleBody = .ok examplePayload ∧
    ((examplePayload.contributions = [] → examplePayload.yearRange = "") ∧
      (∀ firstE lastE, examplePayload.contributions.head? = some firstE →
        examplePayload.contributions.getLast? = some lastE →
        examplePayload.yearRange =
          if getFullYear firstE.date = getFullYear lastE.date
          then toString (getFullYear firstE.date)
          else toString (getFullYear firstE.date) ++ " - " ++
            toString (getFullYear lastE.date))) :=
  ⟨by decide, C7_amended_yearRange "2024-01-03" exampleBody examplePayload (by decide)⟩

/-- C8: when the outbound call exceeds the 10-second budget and is
aborted, the proxy returns 504 with body `{ error: "Request timed out" }`,
while any other transport error yields status 500. -/
theorem C8_timeout_504 (today : String) (elapsedMs : Nat) (settled : UpstreamInteraction)
    (h : FETCH_TIMEOUT ≤ elapsedMs) :
    GET today (raceTimeout elapsedMs settled) = .err 504 "Request timed out" ∧
    ∀ e : JsError, e.name ≠ "AbortError" →
      (GET today (.failed (.jsError e))).status = 500 := by
  constructor
  · rw [raceTimeout, if_pos h]
    rfl
  · intro e he
    simp only [GET, handleCatch]
    rw [if_neg he]
    rfl

theorem C8_witness :
    FETCH_TIMEOUT ≤ 10000 ∧
    (GET "2024-01-03" (raceTimeout 10000 (.responded 200 (.ok exampleBody))) =
        .err 504 "Request timed out" ∧
      ∀ e : JsError, e.name ≠ "AbortError" →
        (GET "2024-01-03" (.failed (.jsError e))).status = 500) :=
  ⟨by decide,
   C8_timeout_504 "2024-01-03" 10000 (.responded 200 (.ok exampleBody)) (by decide)⟩

/-- C9: the day-cell tooltip reads "No contributions on <date>" for count
0, "1 contribution on <date>" for count 1, and "<count> contributions on
<date>" for every other count, with the date rendered by the widget's
formatter. -/
theorem C9_tooltip_text (count : Int) (date : String) :
    (count = 0 → formatTooltip count date = "No contributions on " ++ formatDate date) ∧
    (count = 1 → formatTooltip count date = "1 contribution on " ++ formatDate date) ∧
    (count ≠ 0 → count ≠ 1 →
      formatTooltip count date = toString count ++ " contributions on " ++ formatDate date) := by
  refine ⟨fun h => ?_, fun h => ?_, fun h0 h1 => ?_⟩
  · simp [formatTooltip, h]
  · simp [formatTooltip, h]
  · simp [formatTooltip, h0, h1]

theorem C9_witness :
    formatTooltip 5 "2024-01-02" =
      toString (5 : Int) ++ " contributions on " ++ formatDate "2024-01-02" :=
  (C9_tooltip_text 5 "2024-01-02").2.2 (by decide) (by decide)

/-- C10: on the cache-hit path the widget writes nothing to the local
store (the stored record after mount is the one that was read), and any
store change can only come from a successful live fetch writing the
freshly fetched payload. -/
theorem C10_no_write_on_cache_hit (now : Int) (store : Store) (f : WidgetFetch) (w : Bool) :
    (∀ d, checkCache now store = some d →
      (mountSequence now store f w).store = store ∧
        (mountSequence now store f w).fetched = false) ∧
    ((mountSequence now store f w).store ≠ store →
      ∃ d, f = .ok d ∧ w = true ∧ checkCache now store = none ∧
        (mountSequence now store f w).store = some (.parsed ⟨d, now, CACHE_VERSION⟩)) := by
  constructor
  · intro d hd
    rw [mountSequence_hit now store f w d hd]
    exact ⟨rfl, rfl⟩
  · intro hne
    cases hc : checkCache now store with
    | some d =>
      rw [mountSequence_hit now store f w d hc] at hne
      exact absurd rfl hne
    | none =>
      rw [mountSequence_miss now store f w hc] at hne ⊢
      cases f with
      | ok d =>
        cases w with
        | false => exact absurd rfl hne
        | true => exact ⟨d, rfl, rfl, rfl, rfl⟩
      | httpError status errField => exact absurd rfl hne
      | aborted => exact absurd rfl hne
      | thrown e => exact absurd rfl hne

theorem C10_witness :
    checkCache 100 (some (.parsed ⟨examplePayload, 0, 2⟩)) = some examplePayload ∧
    ((mountSequence 100 (some (.parsed ⟨examplePayload, 0, 2⟩))
        (.ok examplePayload) true).store = some (.parsed ⟨examplePayload, 0, 2⟩) ∧
      (mountSequence 100 (some (.parsed ⟨examplePayload, 0, 2⟩))
        (.ok examplePayload) true).fetched = false) :=
  ⟨by decide,
   (C10_no_write_on_cache_hit 100 (some (.parsed ⟨examplePayload, 0, 2⟩))
      (.ok examplePayload) true).1 examplePayload (by decide)⟩

set_option maxRecDepth 100000 in
theorem C4_witness :
    proxyProcess "2024-01-03" futureBody = .ok futurePayload ∧
    ((∀ c ∈ futureBody.contributions.asArr, strLe c.date "2024-01-03" = false →
        c ∉ futurePayload.contributions) ∧
      (∀ c ∈ futureBody.contributions.asArr, strLe c.date "2024-01-03" = true →
        c ∈ filterFuture "2024-01-03" futureBody.contributions.asArr)) :=
  ⟨by decide, C4_future_dates_excluded "2024-01-03" futureBody futurePayload (by decide)⟩

end Portfolio
